import Mathlib

/-
Shallow embedding of src/create_knowledge_base.py (bedrock-rag).

Python exceptions are modelled as `Except PyErr`; the provider SDK clients
(S3, OpenSearch Serverless, Bedrock agent, Bedrock agent runtime) are
modelled as records of response oracles; the provider calls issued by a
function are recorded in explicit traces so that frame conditions can be
stated.  Opaque provider payloads are modelled as strings.
-/

/-- Python exception payload (message text). -/
abbrev PyErr := String

/-- Python str.lower restricted to the ASCII case mapping, used for the
sentinel check at line 221 of the source. -/
def pyLower (s : String) : String := ⟨s.data.map Char.toLower⟩

/-- Python slice s[-n:]: the last n characters, or the whole string when it
is shorter than n. -/
def lastSlice (n : Nat) (s : String) : String := ⟨s.data.drop (s.data.length - n)⟩

/-- Line 135: timestamp_str = time.strftime of YYYYMMDDHHMMSS, sliced [-7:]. -/
def suffixOf (strftimeOutput : String) : String := lastSlice 7 strftimeOutput

/-- Line 139: knowledge_base_name built from the suffix. -/
def knowledge_base_name (suffix : String) : String :=
  "bedrock-sample-knowledge-base-" ++ suffix

/-- Line 141: data_bucket_name built from the suffix. -/
def data_bucket_name (suffix : String) : String :=
  "bedrock-kb-" ++ suffix ++ "-1"

/-- Line 142: vector_store_name built from the suffix. -/
def vector_store_name (suffix : String) : String :=
  "bedrock-sample-rag-" ++ suffix

/-- Observable calls made against the S3 client. -/
inductive S3Call
  | headBucket (bucket : String)
  | createBucket (bucket : String) (locationConstraint : Option String)
deriving DecidableEq

/-- The S3 client, as the response oracles the script depends on. -/
structure S3Client where
  head_bucket : String → Except PyErr Unit
  create_bucket : String → Option String → Except PyErr Unit
  upload_file : String → String → String → Except PyErr Unit

/-- Lines 23-31: check_s3_bucket_exists.  The try block calls head_bucket and
returns True; the bare except returns False.  The result is paired with the
trace of S3 calls issued. -/
def check_s3_bucket_exists (s3 : S3Client) (bucket_name : String) :
    Except PyErr Bool × List S3Call :=
  (match s3.head_bucket bucket_name with
    | .ok _ => .ok true
    | .error _ => .ok false,
   [.headBucket bucket_name])

/-- Lines 33-50: create_s3_bucket_if_not_exists.  When the existence check
returns True the function returns early; otherwise it issues create_bucket,
with no CreateBucketConfiguration for region us-east-1 and an explicit
LocationConstraint equal to the region otherwise, returning False when the
creation call raises. -/
def create_s3_bucket_if_not_exists (s3 : S3Client) (bucket_name region : String) :
    Except PyErr Bool × List S3Call :=
  match check_s3_bucket_exists s3 bucket_name with
  | (.ok true, t) => (.ok true, t)
  | (.ok false, t) =>
    let lc : Option String := if region = "us-east-1" then none else some region
    (match s3.create_bucket bucket_name lc with
      | .ok _ => .ok true
      | .error _ => .ok false,
     t ++ [.createBucket bucket_name lc])
  | (.error e, t) => (.error e, t)

/-- The OpenSearch Serverless client oracle: batch_get_collection maps the
requested names to the (opaque) collectionDetails list. -/
structure AossClient where
  batch_get_collection : List String → Except PyErr (List String)

/-- Lines 52-62: check_opensearch_collection_exists.  A nonempty
collectionDetails list yields its first element, an empty one yields None,
and the except branch logs and yields None as well. -/
def check_opensearch_collection_exists (aoss : AossClient) (collection_name : String) :
    Except PyErr (Option String) :=
  match aoss.batch_get_collection [collection_name] with
  | .ok details => .ok details.head?
  | .error _ => .ok none

/-- A knowledgeBaseSummaries entry as used by the script (name and id). -/
structure KBSummary where
  name : String
  knowledgeBaseId : String
deriving DecidableEq

/-- The full knowledge-base descriptor returned by get_knowledge_base; the
script reads its knowledgeBaseId field and treats the rest as opaque. -/
structure KBDescriptor where
  knowledgeBaseId : String
  payload : String
deriving DecidableEq

/-- A dataSourceSummaries entry as used by the script (its id). -/
structure DSSummary where
  dataSourceId : String
deriving DecidableEq

/-- The full data-source descriptor returned by get_data_source (opaque). -/
abbrev DSDescriptor := String

/-- Observable calls made against the bedrock-agent client. -/
inductive AgentCall
  | listKnowledgeBases (maxResults : Nat)
  | getKnowledgeBase (knowledgeBaseId : String)
  | listDataSources (knowledgeBaseId : String) (maxResults : Nat)
  | getDataSource (dataSourceId : String) (knowledgeBaseId : String)
deriving DecidableEq

/-- The bedrock-agent client, as the response oracles the script depends on. -/
structure BedrockAgentClient where
  list_knowledge_bases : Nat → Except PyErr (List KBSummary)
  get_knowledge_base : String → Except PyErr KBDescriptor
  list_data_sources : String → Nat → Except PyErr (List DSSummary)
  get_data_source : String → String → Except PyErr DSDescriptor

/-- Lines 87-93: the for loop that issues one get_data_source call per
listed data-source summary and collects the returned descriptors.  An
exception stops the loop and propagates (to the enclosing try). -/
def fetchDataSources (client : BedrockAgentClient) (kb_id : String) :
    List DSSummary → Except PyErr (List DSDescriptor) × List AgentCall
  | [] => (.ok [], [])
  | ds :: rest =>
    match client.get_data_source ds.dataSourceId kb_id with
    | .error e => (.error e, [.getDataSource ds.dataSourceId kb_id])
    | .ok d =>
      match fetchDataSources client kb_id rest with
      | (.error e, t) => (.error e, .getDataSource ds.dataSourceId kb_id :: t)
      | (.ok ds2, t) => (.ok (d :: ds2), .getDataSource ds.dataSourceId kb_id :: t)

/-- Lines 64-101: get_existing_knowledge_base.  Lists knowledge bases with
maxResults 100, takes the first summary whose name equals kb_name, fetches
its full descriptor, lists its data sources with maxResults 100, issues one
get_data_source per summary, and returns the pair (kb, data_sources).  A
missing match returns (None, None); the enclosing except converts every
provider exception into (None, None) as well. -/
def get_existing_knowledge_base (client : BedrockAgentClient) (kb_name : String) :
    (Option KBDescriptor × Option (List DSDescriptor)) × List AgentCall :=
  match client.list_knowledge_bases 100 with
  | .error _ => ((none, none), [.listKnowledgeBases 100])
  | .ok kbs =>
    match kbs.find? (fun kb => kb.name == kb_name) with
    | none => ((none, none), [.listKnowledgeBases 100])
    | some kbSum =>
      match client.get_knowledge_base kbSum.knowledgeBaseId with
      | .error _ =>
        ((none, none),
         [.listKnowledgeBases 100, .getKnowledgeBase kbSum.knowledgeBaseId])
      | .ok kb =>
        match client.list_data_sources kbSum.knowledgeBaseId 100 with
        | .error _ =>
          ((none, none),
           [.listKnowledgeBases 100, .getKnowledgeBase kbSum.knowledgeBaseId,
            .listDataSources kbSum.knowledgeBaseId 100])
        | .ok ds_list =>
          match fetchDataSources client kbSum.knowledgeBaseId ds_list with
          | (.error _, t) =>
            ((none, none),
             [.listKnowledgeBases 100, .getKnowledgeBase kbSum.knowledgeBaseId,
              .listDataSources kbSum.knowledgeBaseId 100] ++ t)
          | (.ok dss, t) =>
            ((some kb, some dss),
             [.listKnowledgeBases 100, .getKnowledgeBase kbSum.knowledgeBaseId,
              .listDataSources kbSum.knowledgeBaseId 100] ++ t)

/-- Observable events of upload_directory: the upload_file call for each
walked file, and the error log entry when that call raises. -/
inductive UploadEvent
  | attempted (file_path bucket key : String)
  | errorLogged (file_path : String) (err : PyErr)
deriving DecidableEq

/-- Line 109: s3_key = os.path.relpath(os.path.join(root, file), local_path).
A path is modelled by its list of components; os.path.join and
os.path.relpath render components joined with the host separator os.sep,
so for a regular file whose path relative to local_path has components cs
the computed key is cs joined with os.sep. -/
def relpathKey (sep : String) (components : List String) : String :=
  String.intercalate sep components

/-- Lines 103-114: upload_directory.  The host separator os.sep is a
parameter; local_path and each regular file (relative to local_path, in the
order os.walk yields them) are component lists.  Each file is uploaded
once; a raising upload is logged and the walk continues. -/
def upload_directory (sep : String) (s3 : S3Client) (local_path : List String)
    (bucket_name : String) : List (List String) → List UploadEvent
  | [] => []
  | cs :: rest =>
    let file_path := relpathKey sep (local_path ++ cs)
    let key := relpathKey sep cs
    (match s3.upload_file file_path bucket_name key with
      | .ok _ => [UploadEvent.attempted file_path bucket_name key]
      | .error e => [UploadEvent.attempted file_path bucket_name key,
                     UploadEvent.errorLogged file_path e]) ++
    upload_directory sep s3 local_path bucket_name rest

/-- The destination keys of the upload_file calls in an upload trace. -/
def uploadedKeys (evs : List UploadEvent) : List String :=
  evs.filterMap (fun e => match e with
    | .attempted _ _ key => some key
    | .errorLogged _ _ => none)

/-- Line 214: the fixed foundation model identifier. -/
def foundation_model : String := "amazon.nova-micro-v1:0"

/-- Line 232: the model ARN built from the session region. -/
def modelArnOf (region : String) : String :=
  "arn:aws:bedrock:" ++ region ++ "::foundation-model/" ++ foundation_model

/-- The retrieve_and_generate request envelope built at lines 226-240. -/
structure RagRequest where
  text : String
  knowledgeBaseId : String
  modelArn : String
  numberOfResults : Nat
deriving DecidableEq

/-- The retrieve request envelope built at lines 253-263. -/
structure RetrieveRequest where
  knowledgeBaseId : String
  numberOfResults : Nat
  text : String
deriving DecidableEq

/-- A retrievalResults entry: content text, location, score and metadata,
all opaque to the script beyond printing. -/
structure Chunk where
  content : String
  location : String
  score : String
  metadata : String
deriving DecidableEq

/-- Printed output of one query-loop iteration: the generated answer on
success, or the error message of the except branch at lines 245-247. -/
inductive LoopEvent
  | answered (text : String)
  | dispatchErrorPrinted (err : PyErr)
deriving DecidableEq

/-- Lines 219-247: the interactive loop.  inputs is the list of lines
stdin still holds; input() on an exhausted stdin raises EOFError, which
the loop does not catch.  A line whose lower() is exit breaks out of the
loop, leaving the remaining lines unread; any other line is dispatched to
retrieve_and_generate inside a try whose except prints the error and falls
through to the next iteration. -/
def queryLoop (rag : RagRequest → Except PyErr String) (region kb_id : String) :
    List String → Except PyErr (List String) × List LoopEvent
  | [] => (.error "EOFError", [])
  | q :: rest =>
    if pyLower q = "exit" then (.ok rest, [])
    else
      match rag ⟨q, kb_id, modelArnOf region, 5⟩ with
      | .ok text =>
        let r := queryLoop rag region kb_id rest
        (r.1, .answered text :: r.2)
      | .error e =>
        let r := queryLoop rag region kb_id rest
        (r.1, .dispatchErrorPrinted e :: r.2)

/-- The wrapper object around the knowledge base, holding the fields of it
that the script reads or overrides. -/
structure BedrockKnowledgeBase where
  knowledge_base : Option KBDescriptor
  data_source : Option (List DSDescriptor)

/-- Creation side effects that the script or the wrapper class can drive,
recorded as a trace. -/
inductive ProvisionEffect
  | constructWrapper (createKB : Bool)
  | createS3Bucket
  | createCollection
  | provisionKnowledgeBase
  | registerDataSource
  | uploadDirectoryRun
  | startIngestionJob
deriving DecidableEq

/-- Modelled from the spec: the class utils.knowledge_base.BedrockKnowledgeBase
(imported at line 167 of src/create_knowledge_base.py) is not under src/.
Per spec section 4.3, constructing it with creation disabled (createKB set
to False, the adopt path) performs zero side effects and only wraps the
existing descriptors, while the create path drives external provisioning
of storage, vector index, and knowledge-base and data-source registration,
in that order. -/
def BedrockKnowledgeBase.construct (createKB : Bool) (existingKB : Option KBDescriptor)
    (dss : Option (List DSDescriptor)) : BedrockKnowledgeBase × List ProvisionEffect :=
  if createKB then
    (⟨existingKB, dss⟩,
     [.constructWrapper true, .createS3Bucket, .createCollection,
      .provisionKnowledgeBase, .registerDataSource])
  else
    (⟨existingKB, dss⟩, [.constructWrapper false])

/-- The fixed adopt-mode knowledge-base name set at line 152. -/
def adoptedKBName : String := "bedrock-sample-knowledge-base-0232519"

/-- Lines 150-177: the branch taken because kbAlreadyExists is the literal
True.  It probes for the fixed knowledge-base name, logs, constructs the
wrapper with createKB set to False, and overrides the knowledge_base and
data_source attributes with the probe results.  Returns the wrapper, the
agent calls of the probe, and the provisioning effects. -/
def adoptBranch (agent : BedrockAgentClient) :
    BedrockKnowledgeBase × List AgentCall × List ProvisionEffect :=
  let probed := get_existing_knowledge_base agent adoptedKBName
  let existing_kb := probed.1.1
  let existing_data_sources := probed.1.2
  let constructed := BedrockKnowledgeBase.construct false existing_kb existing_data_sources
  let kb_wrapper : BedrockKnowledgeBase :=
    { constructed.1 with
        knowledge_base := existing_kb
        data_source := existing_data_sources }
  (kb_wrapper, probed.2, constructed.2)

/-- Line 252: the fixed retrieval-only demonstration query. -/
def retrieval_query : String :=
  "How many new positions were opened across Amazon\x27s fulfillment and delivery network?"

/-- The whole environment main runs against: session and identity lookups,
the strftime output, the agent client, the two runtime oracles, and the
lines stdin holds. -/
structure Env where
  region_name : Except PyErr String
  account_id : Except PyErr String
  strftime_out : String
  agent : BedrockAgentClient
  rag : RagRequest → Except PyErr String
  retrieve : RetrieveRequest → Except PyErr (List Chunk)
  inputs : List String

/-- Lines 118-271: the body of the try block of main.  Session and identity
setup may raise; names are derived from the timestamp; the adopt branch
always runs; line 209 subscripts the wrapper knowledge_base field, raising
a TypeError when it is None; the query loop runs; the retrieve-only
demonstration call at lines 253-263 has no per-call handler, so its
exception propagates.  The provisioning-effect trace is returned beside
the outcome. -/
def mainBody (env : Env) : Except PyErr Unit × List ProvisionEffect :=
  match env.region_name with
  | .error e => (.error e, [])
  | .ok region =>
    match env.account_id with
    | .error e => (.error e, [])
    | .ok _account =>
      let _suffix := suffixOf env.strftime_out
      let adopted := adoptBranch env.agent
      let knowledge_base := adopted.1
      match knowledge_base.knowledge_base with
      | none => (.error "TypeError: NoneType object is not subscriptable", adopted.2.2)
      | some kb =>
        let kb_id := kb.knowledgeBaseId
        let loop := queryLoop env.rag region kb_id env.inputs
        match loop.1 with
        | .error e => (.error e, adopted.2.2)
        | .ok _rest =>
          match env.retrieve ⟨kb_id, 5, retrieval_query⟩ with
          | .error e => (.error e, adopted.2.2)
          | .ok _chunks => (.ok (), adopted.2.2)

namespace CreateKnowledgeBase

/-- Lines 116-276: main wraps its whole body in one try whose except logs
the error with a traceback and falls off the end, so main itself returns
normally on every outcome. -/
def main (env : Env) : Except PyErr Unit × List ProvisionEffect :=
  match mainBody env with
  | (.error _e, tr) => (.ok (), tr)
  | ok => ok

end CreateKnowledgeBase

/-- An S3 client whose every call succeeds. -/
def okS3 : S3Client :=
  { head_bucket := fun _ => .ok ()
    create_bucket := fun _ _ => .ok ()
    upload_file := fun _ _ _ => .ok () }

/-- An S3 client whose head_bucket raises an auth failure. -/
def authFailS3 : S3Client :=
  { head_bucket := fun _ => .error "AccessDenied"
    create_bucket := fun _ _ => .ok ()
    upload_file := fun _ _ _ => .ok () }

/-- An S3 client for which head_bucket reports absence as a client error
with code 404, the shape boto3 gives a missing bucket. -/
def absent404S3 : S3Client :=
  { head_bucket := fun _ => .error "ClientError 404 Not Found"
    create_bucket := fun _ _ => .ok ()
    upload_file := fun _ _ _ => .ok () }

/-- An S3 client for which uploading to one specific destination key raises. -/
def failKeyS3 (badKey : String) : S3Client :=
  { head_bucket := fun _ => .ok ()
    create_bucket := fun _ _ => .ok ()
    upload_file := fun _ _ key => if key = badKey then .error "SlowDown" else .ok () }

/-- An OpenSearch Serverless client whose batch lookup raises an auth failure. -/
def authFailAoss : AossClient :=
  { batch_get_collection := fun _ => .error "AccessDeniedException" }

/-- A bedrock-agent client with no knowledge bases at all. -/
def emptyAgent : BedrockAgentClient :=
  { list_knowledge_bases := fun _ => .ok []
    get_knowledge_base := fun _ => .error "ResourceNotFoundException"
    list_data_sources := fun _ _ => .ok []
    get_data_source := fun _ _ => .error "ResourceNotFoundException" }

/-- A bedrock-agent client whose every call raises an auth failure. -/
def authFailAgent : BedrockAgentClient :=
  { list_knowledge_bases := fun _ => .error "AccessDeniedException"
    get_knowledge_base := fun _ => .error "AccessDeniedException"
    list_data_sources := fun _ _ => .error "AccessDeniedException"
    get_data_source := fun _ _ => .error "AccessDeniedException" }

/-- A bedrock-agent client holding the adopt-mode knowledge base (listed
after one other entry and before a second entry of the same name, so the
first-match rule is exercised) with two data sources. -/
def sampleAgent : BedrockAgentClient :=
  { list_knowledge_bases := fun _ =>
      .ok [⟨"bedrock-other-kb", "KB0"⟩, ⟨adoptedKBName, "KB1"⟩, ⟨adoptedKBName, "KB2"⟩]
    get_knowledge_base := fun i => .ok ⟨i, "descriptor-" ++ i⟩
    list_data_sources := fun _ _ => .ok [⟨"DS1"⟩, ⟨"DS2"⟩]
    get_data_source := fun d k => .ok ("ds-" ++ d ++ "-" ++ k) }

/-- A failing retrieve-and-generate oracle. -/
def failRag : RagRequest → Except PyErr String := fun _ => .error "ValidationException"

/-- An environment in which the adopt-mode lookup finds nothing, so line
209 dereferences a None handle. -/
def envNullDeref : Env :=
  { region_name := .ok "us-east-1"
    account_id := .ok "123456789012"
    strftime_out := "20260101120000"
    agent := emptyAgent
    rag := failRag
    retrieve := fun _ => .error "ValidationException"
    inputs := ["exit"] }

/-- An environment in which adoption succeeds and the loop exits at once,
but the post-loop retrieve-only demonstration call raises. -/
def envRetrieveFail : Env :=
  { region_name := .ok "us-east-1"
    account_id := .ok "123456789012"
    strftime_out := "20260101120000"
    agent := sampleAgent
    rag := fun _ => .ok "generated answer"
    retrieve := fun _ => .error "ThrottlingException"
    inputs := ["exit"] }

/-- Two strings with equal component lists are equal. -/
theorem string_data_inj {s t : String} (h : s.data = t.data) : s = t := by
  cases s
  cases t
  simp_all

/-- Left cancellation for string append. -/
theorem string_append_left_cancel {p s t : String} (h : p ++ s = p ++ t) : s = t := by
  apply string_data_inj
  have hd : p.data ++ s.data = p.data ++ t.data := by
    simpa [String.data_append] using congrArg String.data h
  exact List.append_cancel_left hd

/-- Cancellation for string append on both sides. -/
theorem string_append_both_cancel {p q s t : String}
    (h : p ++ s ++ q = p ++ t ++ q) : s = t := by
  apply string_data_inj
  have hd : p.data ++ (s.data ++ q.data) = p.data ++ (t.data ++ q.data) := by
    simpa [String.data_append, List.append_assoc] using congrArg String.data h
  exact List.append_cancel_right (List.append_cancel_left hd)

/-- find? over a list split around the first element satisfying the
predicate returns that element. -/
theorem find_first_match {α} (p : α → Bool) (pre : List α) (s : α) (post : List α)
    (hpre : ∀ k ∈ pre, p k = false) (hs : p s = true) :
    (pre ++ s :: post).find? p = some s := by
  induction pre with
  | nil => simpa using List.find?_cons_of_pos post hs
  | cons a as ih =>
    have ha : p a = false := hpre a (by simp)
    have step : ((a :: as) ++ s :: post).find? p = (as ++ s :: post).find? p := by
      simpa using List.find?_cons_of_neg (as ++ s :: post) (by simp [ha])
    rw [step]
    exact ih (fun k hk => hpre k (by simp [hk]))

/-- find? returns none on a list where the predicate never holds. -/
theorem find_no_match {α} (p : α → Bool) (l : List α)
    (h : ∀ k ∈ l, p k = false) : l.find? p = none := by
  induction l with
  | nil => rfl
  | cons a as ih =>
    have ha : p a = false := h a (by simp)
    have step : (a :: as).find? p = as.find? p := by
      simpa using List.find?_cons_of_neg as (by simp [ha])
    rw [step]
    exact ih (fun k hk => h k (by simp [hk]))

/-- When every per-summary detail fetch succeeds, the data-source loop
returns the mapped descriptors and issues exactly one getDataSource call
per summary, in order. -/
theorem fetchDataSources_ok (client : BedrockAgentClient) (kb_id : String)
    (detail : String → DSDescriptor) (dsl : List DSSummary)
    (h : ∀ d ∈ dsl, client.get_data_source d.dataSourceId kb_id = .ok (detail d.dataSourceId)) :
    fetchDataSources client kb_id dsl =
      (.ok (dsl.map (fun d => detail d.dataSourceId)),
       dsl.map (fun d => .getDataSource d.dataSourceId kb_id)) := by
  induction dsl with
  | nil => rfl
  | cons d rest ih =>
    have hd := h d (by simp)
    have hrest := ih (fun x hx => h x (by simp [hx]))
    simp only [fetchDataSources, hd, hrest, List.map_cons]

/-- C6: create-mode name generation takes the last 7 characters of the
local YYYYMMDDHHMMSS timestamp as a suffix appended to fixed
per-resource-kind prefixes, so two invocations whose formatted timestamps
differ in their last 7 characters yield distinct names for every resource
kind. -/
theorem C6_name_generation_distinct (ts1 ts2 : String)
    (h : suffixOf ts1 ≠ suffixOf ts2) :
    knowledge_base_name (suffixOf ts1) ≠ knowledge_base_name (suffixOf ts2) ∧
    data_bucket_name (suffixOf ts1) ≠ data_bucket_name (suffixOf ts2) ∧
    vector_store_name (suffixOf ts1) ≠ vector_store_name (suffixOf ts2) := by
  refine ⟨fun he => h ?_, fun he => h ?_, fun he => h ?_⟩
  · exact string_append_left_cancel he
  · exact string_append_both_cancel he
  · exact string_append_left_cancel he

/-- Witness for C6 at two concrete timestamps one second apart. -/
theorem C6_name_generation_distinct_witness :
    suffixOf "20260101000000" ≠ suffixOf "20260101000001" ∧
    knowledge_base_name (suffixOf "20260101000000") ≠
      knowledge_base_name (suffixOf "20260101000001") ∧
    data_bucket_name (suffixOf "20260101000000") ≠
      data_bucket_name (suffixOf "20260101000001") ∧
    vector_store_name (suffixOf "20260101000000") ≠
      vector_store_name (suffixOf "20260101000001") :=
  ⟨by decide, C6_name_generation_distinct "20260101000000" "20260101000001" (by decide)⟩

/-- C9: bucket creation is attempted only when the existence probe reports
the bucket absent, and the create request carries no location constraint
exactly when the region is us-east-1 and an explicit constraint equal to
the region otherwise. -/
theorem C9_conditional_bucket_create (s3 : S3Client) (bucket_name region : String) :
    (s3.head_bucket bucket_name = .ok () →
      (create_s3_bucket_if_not_exists s3 bucket_name region).2 =
        [S3Call.headBucket bucket_name]) ∧
    (∀ e : PyErr, s3.head_bucket bucket_name = .error e →
      (create_s3_bucket_if_not_exists s3 bucket_name region).2 =
        [S3Call.headBucket bucket_name,
         S3Call.createBucket bucket_name
           (if region = "us-east-1" then none else some region)]) := by
  constructor
  · intro h
    simp [create_s3_bucket_if_not_exists, check_s3_bucket_exists, h]
  · intro e h
    simp [create_s3_bucket_if_not_exists, check_s3_bucket_exists, h]

/-- Witness for C9: an existing bucket yields no create call; an absent
bucket yields one create call, with the constraint for eu-west-1 and
without one for us-east-1. -/
theorem C9_conditional_bucket_create_witness :
    (create_s3_bucket_if_not_exists okS3 "bedrock-kb-0232519-1" "eu-west-1").2 =
      [S3Call.headBucket "bedrock-kb-0232519-1"] ∧
    (create_s3_bucket_if_not_exists absent404S3 "bedrock-kb-0232519-1" "eu-west-1").2 =
      [S3Call.headBucket "bedrock-kb-0232519-1",
       S3Call.createBucket "bedrock-kb-0232519-1" (some "eu-west-1")] ∧
    (create_s3_bucket_if_not_exists absent404S3 "bedrock-kb-0232519-1" "us-east-1").2 =
      [S3Call.headBucket "bedrock-kb-0232519-1",
       S3Call.createBucket "bedrock-kb-0232519-1" none] :=
  ⟨(C9_conditional_bucket_create okS3 "bedrock-kb-0232519-1" "eu-west-1").1 rfl,
   ((C9_conditional_bucket_create absent404S3 "bedrock-kb-0232519-1" "eu-west-1").2
      "ClientError 404 Not Found" rfl).trans (by decide),
   ((C9_conditional_bucket_create absent404S3 "bedrock-kb-0232519-1" "us-east-1").2
      "ClientError 404 Not Found" rfl).trans (by decide)⟩

/-- C2 counterexample: a provider auth failure does not propagate from any
of the three probes; each converts it into its ordinary not-found result
(False, None, and the pair (None, None) respectively). -/
theorem C2_counterexample_errors_swallowed :
    (check_s3_bucket_exists authFailS3 "bedrock-kb-0232519-1").1 = Except.ok false ∧
    check_opensearch_collection_exists authFailAoss "bedrock-sample-rag-0232519-f" =
      Except.ok none ∧
    (get_existing_knowledge_base authFailAgent adoptedKBName).1 = (none, none) :=
  ⟨rfl, rfl, rfl⟩

/-- C2 amended: every existence probe reports absence as a normal
not-found result without raising, and a transport or auth failure from the
provider is likewise caught, logged, and converted into the same not-found
result rather than propagating. -/
theorem C2_probes_never_propagate (s3 : S3Client) (aoss : AossClient)
    (agent : BedrockAgentClient) (b c k : String) (e : PyErr) :
    ((check_s3_bucket_exists s3 b).1 ≠ Except.error e) ∧
    (check_opensearch_collection_exists aoss c ≠ Except.error e) ∧
    (s3.head_bucket b = .error e → (check_s3_bucket_exists s3 b).1 = .ok false) ∧
    (aoss.batch_get_collection [c] = .ok [] →
      check_opensearch_collection_exists aoss c = .ok none) ∧
    (aoss.batch_get_collection [c] = .error e →
      check_opensearch_collection_exists aoss c = .ok none) ∧
    (agent.list_knowledge_bases 100 = .error e →
      (get_existing_knowledge_base agent k).1 = (none, none)) := by
  refine ⟨?_, ?_, ?_, ?_, ?_, ?_⟩
  · cases hh : s3.head_bucket b <;> simp [check_s3_bucket_exists, hh]
  · cases hh : aoss.batch_get_collection [c] <;>
      simp [check_opensearch_collection_exists, hh]
  · intro h
    simp [check_s3_bucket_exists, h]
  · intro h
    simp [check_opensearch_collection_exists, h]
  · intro h
    simp [check_opensearch_collection_exists, h]
  · intro h
    simp [get_existing_knowledge_base, h]

/-- Witness for C2 amended at concrete auth-failing clients. -/
theorem C2_probes_never_propagate_witness :
    (check_s3_bucket_exists authFailS3 "some-other-bucket").1 = Except.ok false ∧
    check_opensearch_collection_exists authFailAoss "some-other-collection" =
      Except.ok none ∧
    (get_existing_knowledge_base authFailAgent "some-other-kb").1 = (none, none) :=
  ⟨(C2_probes_never_propagate authFailS3 authFailAoss authFailAgent
      "some-other-bucket" "some-other-collection" "some-other-kb" "AccessDenied").2.2.1 rfl,
   (C2_probes_never_propagate authFailS3 authFailAoss authFailAgent
      "some-other-bucket" "some-other-collection" "some-other-kb"
      "AccessDeniedException").2.2.2.2.1 rfl,
   (C2_probes_never_propagate authFailS3 authFailAoss authFailAgent
      "some-other-bucket" "some-other-collection" "some-other-kb"
      "AccessDeniedException").2.2.2.2.2 rfl⟩

/-- C3: for every outcome of the adopt-mode probe, the adopt branch drives
no creation side effect of any kind, and the wrapper is constructed with
creation disabled. -/
theorem C3_adopt_branch_no_creation (agent : BedrockAgentClient) :
    (adoptBranch agent).2.2 = [ProvisionEffect.constructWrapper false] ∧
    ProvisionEffect.createS3Bucket ∉ (adoptBranch agent).2.2 ∧
    ProvisionEffect.createCollection ∉ (adoptBranch agent).2.2 ∧
    ProvisionEffect.provisionKnowledgeBase ∉ (adoptBranch agent).2.2 ∧
    ProvisionEffect.registerDataSource ∉ (adoptBranch agent).2.2 ∧
    ProvisionEffect.uploadDirectoryRun ∉ (adoptBranch agent).2.2 ∧
    ProvisionEffect.startIngestionJob ∉ (adoptBranch agent).2.2 := by
  have h : (adoptBranch agent).2.2 = [ProvisionEffect.constructWrapper false] := rfl
  rw [h]
  exact ⟨rfl, by simp, by simp, by simp, by simp, by simp, by simp⟩

/-- C1: when the adopt-mode probe finds no knowledge base whose name
equals the fixed target name, it surfaces a null knowledge base and null
data-source list to the caller, the branch performs no fallback creation,
and the run continues with a null handle. -/
theorem C1_adopt_not_found_null_handle (agent : BedrockAgentClient) (kbs : List KBSummary)
    (hlist : agent.list_knowledge_bases 100 = .ok kbs)
    (hnone : ∀ kb ∈ kbs, kb.name ≠ adoptedKBName) :
    (get_existing_knowledge_base agent adoptedKBName).1 = (none, none) ∧
    (adoptBranch agent).1.knowledge_base = none ∧
    (adoptBranch agent).1.data_source = none ∧
    (adoptBranch agent).2.2 = [ProvisionEffect.constructWrapper false] := by
  have hfind : kbs.find? (fun kb => kb.name == adoptedKBName) = none :=
    find_no_match _ _ (fun k hk => by simpa using hnone k hk)
  have hmain : (get_existing_knowledge_base agent adoptedKBName).1 = (none, none) := by
    simp [get_existing_knowledge_base, hlist, hfind]
  refine ⟨hmain, ?_, ?_, rfl⟩
  · show (get_existing_knowledge_base agent adoptedKBName).1.1 = none
    rw [hmain]
  · show (get_existing_knowledge_base agent adoptedKBName).1.2 = none
    rw [hmain]

/-- Witness for C1 at a client that lists no knowledge bases at all. -/
theorem C1_adopt_not_found_null_handle_witness :
    (get_existing_knowledge_base emptyAgent adoptedKBName).1 = (none, none) ∧
    (adoptBranch emptyAgent).1.knowledge_base = none ∧
    (adoptBranch emptyAgent).1.data_source = none ∧
    (adoptBranch emptyAgent).2.2 = [ProvisionEffect.constructWrapper false] :=
  C1_adopt_not_found_null_handle emptyAgent [] rfl (by simp)

/-- C5: the probe lists knowledge bases with page limit 100, selects the
first summary whose name equals the target (even when a later summary
carries the same name), fetches its full descriptor, lists its data
sources with page limit 100, issues exactly one detail fetch per listed
data source, and returns the descriptor together with the data-source
list. -/
theorem C5_probe_two_step_shape (agent : BedrockAgentClient) (kb_name : String)
    (pre post : List KBSummary) (s : KBSummary) (kb : KBDescriptor)
    (dsl : List DSSummary) (detail : String → DSDescriptor)
    (hlist : agent.list_knowledge_bases 100 = .ok (pre ++ s :: post))
    (hpre : ∀ k ∈ pre, k.name ≠ kb_name)
    (hs : s.name = kb_name)
    (hget : agent.get_knowledge_base s.knowledgeBaseId = .ok kb)
    (hds : agent.list_data_sources s.knowledgeBaseId 100 = .ok dsl)
    (hdetail : ∀ d ∈ dsl,
      agent.get_data_source d.dataSourceId s.knowledgeBaseId = .ok (detail d.dataSourceId)) :
    get_existing_knowledge_base agent kb_name =
      ((some kb, some (dsl.map (fun d => detail d.dataSourceId))),
       [AgentCall.listKnowledgeBases 100, AgentCall.getKnowledgeBase s.knowledgeBaseId,
        AgentCall.listDataSources s.knowledgeBaseId 100] ++
       dsl.map (fun d => AgentCall.getDataSource d.dataSourceId s.knowledgeBaseId)) := by
  have hfind : (pre ++ s :: post).find? (fun kb => kb.name == kb_name) = some s :=
    find_first_match _ pre s post (fun k hk => by simpa using hpre k hk) (by simpa using hs)
  have hfetch := fetchDataSources_ok agent s.knowledgeBaseId detail dsl hdetail
  simp [get_existing_knowledge_base, hlist, hfind, hget, hds, hfetch]

/-- Witness for C5 at a client whose listing holds a non-matching summary,
then two summaries of the target name, the first of which is used, with
two data sources, each fetched once. -/
theorem C5_probe_two_step_shape_witness :
    get_existing_knowledge_base sampleAgent adoptedKBName =
      ((some ⟨"KB1", "descriptor-KB1"⟩, some ["ds-DS1-KB1", "ds-DS2-KB1"]),
       [AgentCall.listKnowledgeBases 100, AgentCall.getKnowledgeBase "KB1",
        AgentCall.listDataSources "KB1" 100,
        AgentCall.getDataSource "DS1" "KB1", AgentCall.getDataSource "DS2" "KB1"]) :=
  (C5_probe_two_step_shape sampleAgent adoptedKBName
    [⟨"bedrock-other-kb", "KB0"⟩] [⟨adoptedKBName, "KB2"⟩]
    ⟨adoptedKBName, "KB1"⟩ ⟨"KB1", "descriptor-KB1"⟩
    [⟨"DS1"⟩, ⟨"DS2"⟩] (fun d => "ds-" ++ d ++ "-KB1")
    rfl (by decide) rfl rfl rfl
    (by
      intro d hd
      obtain ⟨x⟩ := d
      simp only [List.mem_cons, List.not_mem_nil, or_false] at hd
      rcases hd with h | h <;> rw [h] <;> rfl)).trans (by decide)

/-- Every file in the walk produces exactly one upload_file call, whose
destination key is the relative component path joined with the host
separator, in walk order and independent of the per-file outcomes. -/
theorem uploadedKeys_upload_directory (sep : String) (s3 : S3Client)
    (local_path : List String) (bucket : String) (files : List (List String)) :
    uploadedKeys (upload_directory sep s3 local_path bucket files) =
      files.map (relpathKey sep) := by
  induction files with
  | nil => rfl
  | cons cs rest ih =>
    simp only [upload_directory]
    cases s3.upload_file (relpathKey sep (local_path ++ cs)) bucket (relpathKey sep cs) <;>
      simp [uploadedKeys, List.filterMap_append] <;>
      simpa [uploadedKeys] using ih

/-- C7 counterexample: on a host whose path separator is the backslash,
the destination key computed for the file with components a, b.txt is the
backslash-joined key, not the forward-slash key a/b.txt, so the keys are
not independent of the host path-separator convention. -/
theorem C7_counterexample_backslash_host :
    uploadedKeys (upload_directory "\\" okS3 ["data"] "bkt" [["a", "b.txt"], ["c.txt"]]) =
      ["a\\b.txt", "c.txt"] ∧
    "a\\b.txt" ≠ "a/b.txt" := ⟨rfl, by decide⟩

/-- C7 amended: upload_tree uses the file path relative to the local root,
joined with the host path separator, as the destination key; on a host
whose separator is the forward slash, a directory holding a/b.txt and
c.txt produces destination keys exactly a/b.txt and c.txt. -/
theorem C7_relative_destination_keys (sep : String) (s3 : S3Client)
    (local_path : List String) (bucket : String) (files : List (List String)) :
    uploadedKeys (upload_directory sep s3 local_path bucket files) =
      files.map (relpathKey sep) ∧
    uploadedKeys (upload_directory "/" okS3 ["data"] "bkt" [["a", "b.txt"], ["c.txt"]]) =
      ["a/b.txt", "c.txt"] :=
  ⟨uploadedKeys_upload_directory sep s3 local_path bucket files, rfl⟩

/-- C8: a raising per-file upload is logged and skipped without aborting
or retrying: every file still produces exactly one upload_file call in
walk order, and the failing file adds an error log entry to the trace. -/
theorem C8_partial_failure_tolerated (sep : String) (s3 : S3Client)
    (local_path : List String) (bucket : String) (files : List (List String)) :
    uploadedKeys (upload_directory sep s3 local_path bucket files) =
      files.map (relpathKey sep) ∧
    (∀ cs ∈ files, ∀ e : PyErr,
      s3.upload_file (relpathKey sep (local_path ++ cs)) bucket (relpathKey sep cs) =
        .error e →
      UploadEvent.errorLogged (relpathKey sep (local_path ++ cs)) e ∈
        upload_directory sep s3 local_path bucket files) := by
  refine ⟨uploadedKeys_upload_directory sep s3 local_path bucket files, ?_⟩
  intro cs hcs e he
  induction files with
  | nil => cases hcs
  | cons x rest ih =>
    rcases List.mem_cons.mp hcs with rfl | hmem
    · simp only [upload_directory, he]
      simp
    · simp only [upload_directory]
      cases s3.upload_file (relpathKey sep (local_path ++ x)) bucket (relpathKey sep x) <;>
        simp [ih hmem]

/-- Witness for C8: with the upload of key a/b.txt raising, both files are
still attempted once each and the failure is logged. -/
theorem C8_partial_failure_tolerated_witness :
    uploadedKeys (upload_directory "/" (failKeyS3 "a/b.txt") ["data"] "bkt"
        [["a", "b.txt"], ["c.txt"]]) =
      ["a/b.txt", "c.txt"] ∧
    UploadEvent.errorLogged "data/a/b.txt" "SlowDown" ∈
      upload_directory "/" (failKeyS3 "a/b.txt") ["data"] "bkt"
        [["a", "b.txt"], ["c.txt"]] :=
  ⟨(C8_partial_failure_tolerated "/" (failKeyS3 "a/b.txt") ["data"] "bkt"
      [["a", "b.txt"], ["c.txt"]]).1,
   (C8_partial_failure_tolerated "/" (failKeyS3 "a/b.txt") ["data"] "bkt"
      [["a", "b.txt"], ["c.txt"]]).2 ["a", "b.txt"] (by decide) "SlowDown"
      (by
        have h : relpathKey "/" ["a", "b.txt"] = "a/b.txt" := by decide
        simp [failKeyS3, h])⟩

/-- C4: the interactive loop exits normally only at the first entered line
whose lowercase form is the sentinel exit; an exception raised while
dispatching a query is caught at the dispatch boundary, the error is
printed, and the loop continues with the next line; when no entered line
matches the sentinel the loop never exits normally. -/
theorem C4_loop_exits_only_on_sentinel (rag : RagRequest → Except PyErr String)
    (region kb_id : String) :
    (∀ inputs rem, (queryLoop rag region kb_id inputs).1 = .ok rem →
      ∃ pre q, inputs = pre ++ q :: rem ∧ pyLower q = "exit" ∧
        ∀ p ∈ pre, pyLower p ≠ "exit") ∧
    (∀ q rest e, pyLower q ≠ "exit" →
      rag ⟨q, kb_id, modelArnOf region, 5⟩ = .error e →
      queryLoop rag region kb_id (q :: rest) =
        ((queryLoop rag region kb_id rest).1,
         LoopEvent.dispatchErrorPrinted e :: (queryLoop rag region kb_id rest).2)) ∧
    (∀ inputs, (∀ q ∈ inputs, pyLower q ≠ "exit") →
      ∀ rem, (queryLoop rag region kb_id inputs).1 ≠ .ok rem) := by
  have hstep : ∀ q rest, pyLower q ≠ "exit" →
      (queryLoop rag region kb_id (q :: rest)).1 = (queryLoop rag region kb_id rest).1 := by
    intro q rest hq
    simp only [queryLoop, if_neg hq]
    cases rag ⟨q, kb_id, modelArnOf region, 5⟩ <;> simp
  refine ⟨?_, ?_, ?_⟩
  · intro inputs
    induction inputs with
    | nil =>
      intro rem h
      exact absurd h (by simp [queryLoop])
    | cons q rest ih =>
      intro rem h
      by_cases hq : pyLower q = "exit"
      · have hval : (queryLoop rag region kb_id (q :: rest)).1 = .ok rest := by
          simp [queryLoop, hq]
        rw [hval] at h
        refine ⟨[], q, ?_, hq, by simp⟩
        simpa using (Except.ok.injEq _ _ ▸ h : rest = rem) ▸ rfl
      · rw [hstep q rest hq] at h
        obtain ⟨pre, q2, heq, hq2, hpre⟩ := ih rem h
        refine ⟨q :: pre, q2, by simp [heq], hq2, ?_⟩
        intro p hp
        rcases List.mem_cons.mp hp with rfl | hp
        · exact hq
        · exact hpre p hp
  · intro q rest e hq herr
    simp [queryLoop, if_neg hq, herr]
  · intro inputs hno
    induction inputs with
    | nil =>
      intro rem
      simp [queryLoop]
    | cons q rest ih =>
      intro rem
      have hq : pyLower q ≠ "exit" := hno q (by simp)
      rw [hstep q rest hq]
      exact ih (fun x hx => hno x (by simp [hx])) rem

/-- Witness for C4: with every dispatch raising and no sentinel entered,
the loop has not exited normally. -/
theorem C4_loop_exits_only_on_sentinel_witness :
    (queryLoop failRag "us-east-1" "KB1" ["hello", "world"]).1 ≠ Except.ok [] :=
  (C4_loop_exits_only_on_sentinel failRag "us-east-1" "KB1").2.2
    ["hello", "world"] (by decide) []

/-- C10: main never lets an exception escape: for every environment the
single top-level handler absorbs whatever the body raises and main returns
normally; and the body genuinely raises both on the None-handle
dereference after a failed adopt-mode lookup and on a failure of the
unguarded post-loop retrieve-only demonstration call. -/
theorem C10_main_never_raises :
    (∀ env : Env, (CreateKnowledgeBase.main env).1 = .ok ()) ∧
    (mainBody envNullDeref).1 = .error "TypeError: NoneType object is not subscriptable" ∧
    (mainBody envRetrieveFail).1 = .error "ThrottlingException" := by
  refine ⟨fun env => ?_, rfl, rfl⟩
  show (CreateKnowledgeBase.main env).1 = .ok ()
  rcases hm : mainBody env with ⟨r, tr⟩
  cases r with
  | error e => simp [CreateKnowledgeBase.main, hm]
  | ok u =>
    cases u
    simp [CreateKnowledgeBase.main, hm]
